import Mathlib

-- Verification of the x402resolve escrow / dispute-resolution system.
-- Shallow embedding of the settlement arithmetic, refund formulas, oracle
-- consensus, escrow state machine, reputation updates, ZK-proof validation
-- and program-derived-address derivation, with theorems checking the
-- specification's claims against the code.

namespace X402

-- ## Refund-percentage formulas

/-- Refund percentage computed by `AgentOrchestrator.initiateDispute`
(src/unnamed/part_010, line 246): `Math.max(0, 100 - qualityScore)`. -/
def initiateDisputeRefundPercentage (qualityScore : ℚ) : ℚ :=
  max 0 (100 - qualityScore)

/-- Refund percentage computed by `ParallelEscrowProcessor.processDisputeResolution`
(src/unnamed/part_012, line 189): `Math.max(0, 100 - dispute.qualityScore)`. -/
def processDisputeResolutionRefund (qualityScore : ℚ) : ℚ :=
  max 0 (100 - qualityScore)

/-- Refund rule as the spec (§4.3) and the repository documentation
(src/unnamed/part_001 lines 61-63, SCENE-5-VISUAL-GUIDE.md) state it:
score ≥ 80 gives 0, otherwise `clamp(((80 - score) / 80) * 100, 0, 100)`.
This definition follows the spec's words; it is the comparison point for the
divergent demo-code formulas above. -/
def refundPercentageSpec (score : ℚ) : ℚ :=
  if 80 ≤ score then 0 else min 100 (max 0 ((80 - score) / 80 * 100))

-- ## Settlement arithmetic (Rust snippet quoted in src/unnamed/part_015, lines 36-47)

/-- Upper bound of the `u64` range. -/
def u64Bound : ℕ := 2 ^ 64

/-- Upper bound of the `u128` range. -/
def u128Bound : ℕ := 2 ^ 128

/-- Rust `u128::checked_mul`: `none` exactly when the product leaves the `u128` range. -/
def checkedMulU128 (a b : ℕ) : Option ℕ :=
  if a * b < u128Bound then some (a * b) else none

/-- Rust `u128::checked_div`: `none` exactly on division by zero. -/
def checkedDivU128 (a b : ℕ) : Option ℕ :=
  if b = 0 then none else some (a / b)

/-- Rust `u64::checked_sub`: `none` exactly on underflow. -/
def checkedSubU64 (a b : ℕ) : Option ℕ :=
  if b ≤ a then some (a - b) else none

/-- Rust `as u64` cast: truncation modulo `2^64`. -/
def castU64 (a : ℕ) : ℕ := a % u64Bound

/-- Settlement arithmetic of `resolve_dispute` as quoted in
src/unnamed/part_015 lines 36-47:
`refund_amount = ((amount as u128).checked_mul(pct).?.checked_div(100)?) as u64`,
`payment_amount = amount.checked_sub(refund_amount)?`.
Returns `some (refund_amount, payment_amount)` on success. -/
def resolveDisputeAmounts (amount refundPercentage : ℕ) : Option (ℕ × ℕ) :=
  match checkedMulU128 amount refundPercentage with
  | none => none
  | some prod =>
    match checkedDivU128 prod 100 with
    | none => none
    | some q =>
      let refundAmount := castU64 q
      match checkedSubU64 amount refundAmount with
      | none => none
      | some paymentAmount => some (refundAmount, paymentAmount)

-- ## Oracle quality consensus
-- Modelled from the spec: the consensus engine lives in the
-- `packages/x402-escrow` Anchor program (`resolve_dispute_multi_oracle`),
-- which is referenced by src/unnamed/part_015 and the README but whose Rust
-- source is not under src/; only TypeScript callers and demos are. The
-- definitions below follow §4.2 of the spec.

/-- Insert into a sorted list, keeping it sorted. -/
def insertSorted (x : ℚ) : List ℚ → List ℚ
  | [] => [x]
  | y :: ys => if x ≤ y then x :: y :: ys else y :: insertSorted x ys

/-- Sort the submitted scores ascending (insertion sort, structural so that
concrete inputs evaluate). -/
def sortScores : List ℚ → List ℚ
  | [] => []
  | x :: xs => insertSorted x (sortScores xs)

/-- Modelled from the spec: median of an already-sorted list --- the middle
element for odd length, the average of the two middle elements for even
length (§4.2's fixed tie-break). -/
def medianOfSorted (l : List ℚ) : ℚ :=
  if l.length % 2 = 1 then l.getD (l.length / 2) 0
  else (l.getD (l.length / 2 - 1) 0 + l.getD (l.length / 2) 0) / 2

/-- Modelled from the spec: the relative spread `(max(S) - min(S)) / median(S)`
of a sorted list, expressed in percent. -/
def spreadPercentOfSorted (l : List ℚ) : ℚ :=
  (l.getLastD 0 - l.headD 0) / medianOfSorted l * 100

/-- Errors of the escrow program (spec §4.1, §4.2, §7). -/
inductive EscrowError
  | notActive
  | alreadyResolved
  | windowClosed
  | insufficientConsensus
  | deviationExceeded
deriving DecidableEq

/-- Modelled from the spec (§4.2): sort the valid scores, require at least
`minConsensusCount` of them (`InsufficientConsensus` otherwise), take the
median as consensus score, and require the relative spread to stay within
`maxDeviationPercent` (`DeviationExceeded` otherwise). A single submission
always has zero spread, so the single-oracle mode of the spec coincides with
this general path. -/
def buildConsensusSpec (scores : List ℚ) (minConsensusCount : ℕ)
    (maxDeviationPercent : ℚ) : Except EscrowError ℚ :=
  let sorted := sortScores scores
  if sorted.length < minConsensusCount then .error .insufficientConsensus
  else if maxDeviationPercent < spreadPercentOfSorted sorted then .error .deviationExceeded
  else .ok (medianOfSorted sorted)

-- ## Escrow state machine
-- Modelled from the spec: the escrow account state machine is implemented by
-- the `packages/x402-escrow` Anchor program, not present under src/ (only its
-- TypeScript callers, demos and reports are). Definitions follow §3 and §4.1.

/-- Escrow lifecycle status (spec §3). -/
inductive EscrowStatus
  | active
  | released
  | disputed
  | resolved
deriving DecidableEq

/-- Escrow record, restricted to the fields the claims speak about (spec §3). -/
structure Escrow where
  amount : ℕ
  status : EscrowStatus
  qualityScore : Option ℚ
  refundPercentage : Option ℚ
deriving DecidableEq

/-- Modelled from the spec (§4.3): split `amount` by a refund percentage,
`refund = floor(amount * pct / 100)`, `payment = amount - refund`. -/
def settleAmounts (amount : ℕ) (pct : ℚ) : ℕ × ℕ :=
  let refund := (Int.floor ((amount : ℚ) * pct / 100)).toNat
  (refund, amount - refund)

/-- Modelled from the spec (§4.1 `release`): requires Active, transfers the
full amount, sets Released; fails `NotActive` otherwise. -/
def releaseFunds (e : Escrow) : Except EscrowError Escrow :=
  match e.status with
  | .active => .ok { e with status := .released }
  | _ => .error .notActive

/-- Modelled from the spec (§4.1 `mark_disputed`): requires Active and the
dispute window still open; sets Disputed, no funds move; fails
`AlreadyResolved`/`WindowClosed` otherwise. -/
def markDisputed (e : Escrow) (withinDisputeWindow : Bool) : Except EscrowError Escrow :=
  match e.status with
  | .active =>
    if withinDisputeWindow then .ok { e with status := .disputed }
    else .error .windowClosed
  | _ => .error .alreadyResolved

/-- Modelled from the spec (§4.1 `resolve_dispute`): requires Disputed;
computes the consensus score (§4.2) and the refund split (§4.3), sets
quality_score / refund_percentage / Resolved and returns the two transfer
legs. A call on an already-Resolved escrow fails `AlreadyResolved`; a
consensus failure propagates its error and changes nothing. -/
def resolveDispute (e : Escrow) (scores : List ℚ) (minConsensusCount : ℕ)
    (maxDeviationPercent : ℚ) : Except EscrowError (Escrow × ℕ × ℕ) :=
  match e.status with
  | .resolved => .error .alreadyResolved
  | .disputed =>
    match buildConsensusSpec scores minConsensusCount maxDeviationPercent with
    | .error err => .error err
    | .ok score =>
      let pct := refundPercentageSpec score
      let amounts := settleAmounts e.amount pct
      let resolved : Escrow :=
        { e with status := .resolved, qualityScore := some score, refundPercentage := some pct }
      .ok (resolved, amounts.1, amounts.2)
  | _ => .error .notActive

/-- Mutating instructions of the escrow program (spec §6). -/
inductive EscrowInstr
  | release
  | markDispute (withinWindow : Bool)
  | resolve (scores : List ℚ) (minConsensusCount : ℕ) (maxDeviationPercent : ℚ)

/-- Apply one mutating instruction to an escrow record. -/
def applyInstr (e : Escrow) (i : EscrowInstr) : Except EscrowError Escrow :=
  match i with
  | .release => releaseFunds e
  | .markDispute w => markDisputed e w
  | .resolve s m d => Except.map (fun r => r.1) (resolveDispute e s m d)

/-- The transitions the spec allows: Active to Released or Disputed, and
Disputed to Resolved (§4.1, §8). -/
def forwardTransition (a b : EscrowStatus) : Bool :=
  match a, b with
  | .active, .released => true
  | .active, .disputed => true
  | .disputed, .resolved => true
  | _, _ => false

-- ## Reputation / provider history (src/packages/mcp-server/src/ml/dispute-predictor.ts)

/-- Numeric fields of `HistoricalData` (dispute-predictor.ts lines 19-26); the
string `providerId` plays no role in the arithmetic. -/
structure HistoricalData where
  totalTransactions : ℕ
  disputes : ℕ
  averageQuality : ℚ
  responseTime : ℚ
  uptime : ℚ
deriving DecidableEq

/-- Embeds `DisputePredictor.updateProviderHistory` (dispute-predictor.ts lines
235-250): increment the transaction count, increment the dispute count when
`wasDisputed`, and recompute the average quality as the running mean
`(old_avg * (n - 1) + quality) / n` against the already-incremented count `n`. -/
def updateProviderHistory (d : HistoricalData) (wasDisputed : Bool) (quality : ℚ) :
    HistoricalData :=
  let total := d.totalTransactions + 1
  let newAverage := (d.averageQuality * ((total : ℚ) - 1) + quality) / (total : ℚ)
  { d with
    totalTransactions := total
    disputes := if wasDisputed then d.disputes + 1 else d.disputes
    averageQuality := newAverage }

/-- Embeds `DisputePredictor.calculateReputationScore` (dispute-predictor.ts lines
111-119): 50 for a provider with no transactions, otherwise
`quality * 0.5 + (uptime / 100) * 100 * 0.3 + max(0, 100 - responseTime / 10) * 0.2`. -/
def calculateReputationScore (d : HistoricalData) : ℚ :=
  if d.totalTransactions = 0 then 50
  else
    let qualityScore := d.averageQuality
    let reliabilityScore := d.uptime / 100 * 100
    let speedScore := max 0 (100 - d.responseTime / 10)
    qualityScore * (1 / 2) + reliabilityScore * (3 / 10) + speedScore * (1 / 5)

/-- Badge tiers of `ReputationNFTSystem` (src/unnamed/part_011). -/
inductive BadgeTier
  | bronze
  | silver
  | gold
  | platinum
deriving DecidableEq

/-- Base tier scores of `ReputationNFTSystem.calculateTrustScore`
(src/unnamed/part_011 lines 240-245). -/
def tierScore : BadgeTier → ℚ
  | .bronze => 60
  | .silver => 75
  | .gold => 85
  | .platinum => 95

/-- Embeds `ReputationNFTSystem.calculateTrustScore` (src/unnamed/part_011 lines
239-252): `clamp(baseTierScore + (averageQuality - 50) * 0.4 - disputeRate * 20, 0, 100)`
(0.4 written as 2/5). -/
def calculateTrustScore (tier : BadgeTier) (averageQuality disputeRate : ℚ) : ℚ :=
  max 0 (min 100 (tierScore tier + (averageQuality - 50) * (2 / 5) - disputeRate * 20))

-- ## ZK quality proofs (src/packages/mcp-server/src/privacy/zk-quality.ts)

/-- Shape of a `ZKProof` (zk-quality.ts lines 4-8). -/
structure ZKProof where
  proof : String
  publicInputs : List String
  verificationKey : String
deriving DecidableEq

/-- Decimal digit test used by the string parsers. -/
def isDigitChar (c : Char) : Bool := '0' ≤ c && c ≤ '9'

/-- Whitespace skipped by JavaScript `parseFloat`. -/
def isSpaceChar (c : Char) : Bool := c = ' ' || c = '\t' || c = '\n' || c = '\r'

/-- Value of a digit string. -/
def digitsVal (l : List Char) : ℕ :=
  l.foldl (fun a c => 10 * a + (c.toNat - 48)) 0

/-- Optional sign prefix: `true` means negative. -/
def parseSign : List Char → Bool × List Char
  | '-' :: r => (true, r)
  | '+' :: r => (false, r)
  | l => (false, l)

/-- Exponent suffix of a JavaScript float literal: optional sign then digits;
a malformed suffix contributes exponent 0 (parseFloat stops before it). -/
def parseExponent (l : List Char) : ℤ :=
  let sr := parseSign l
  let ds := sr.2.takeWhile isDigitChar
  if ds.isEmpty then 0
  else if sr.1 then -(digitsVal ds : ℤ) else (digitsVal ds : ℤ)

/-- Digit-level part of JavaScript `parseFloat`: skip leading whitespace, then
an optional sign, digits with an optional fractional part and an optional
exponent, ignoring trailing garbage. Returns
`(negative, integer value, fraction value, fraction length, exponent)`,
or `none` when no numeric prefix exists (`NaN`). -/
def parseDecimal (s : String) : Option (Bool × ℕ × ℕ × ℕ × ℤ) :=
  let cs := s.data.dropWhile isSpaceChar
  let sr := parseSign cs
  let intPart := sr.2.takeWhile isDigitChar
  let rest1 := sr.2.dropWhile isDigitChar
  let fracAndRest : List Char × List Char :=
    match rest1 with
    | '.' :: r => (r.takeWhile isDigitChar, r.dropWhile isDigitChar)
    | _ => ([], rest1)
  if intPart.isEmpty && fracAndRest.1.isEmpty then none
  else
    let e : ℤ :=
      match fracAndRest.2 with
      | 'e' :: r => parseExponent r
      | 'E' :: r => parseExponent r
      | _ => 0
    some (sr.1, digitsVal intPart, digitsVal fracAndRest.1, fracAndRest.1.length, e)

/-- Assemble the parsed decimal parts into a rational value. -/
def ratOfParts (negative : Bool) (intVal fracVal fracLen : ℕ) (e : ℤ) : ℚ :=
  let mantissa : ℚ := (intVal : ℚ) + (fracVal : ℚ) / (10 : ℚ) ^ fracLen
  let v : ℚ := if 0 ≤ e then mantissa * (10 : ℚ) ^ e.toNat else mantissa / (10 : ℚ) ^ e.natAbs
  if negative then -v else v

/-- Model of JavaScript `parseFloat` over ℚ; `none` models `NaN` (the
non-finite literal `Infinity` is also mapped to `none` --- `verifyProof`
rejects it either way). -/
def jsParseFloat (s : String) : Option ℚ :=
  match parseDecimal s with
  | none => none
  | some (negative, intVal, fracVal, fracLen, e) =>
    some (ratOfParts negative intVal fracVal fracLen e)

/-- Embeds `ZKQualityVerifier.validateCommitment` (zk-quality.ts lines 104-106):
the regex `^[a-f0-9]{64}$`. -/
def validateCommitment (s : String) : Bool :=
  s.length = 64 && s.data.all (fun c => isDigitChar c || ('a' ≤ c && c ≤ 'f'))

/-- Embeds `ZKQualityVerifier.verifyProof` (zk-quality.ts lines 85-102), with the
fixed verification key abstracted as the parameter `vkey` (the class computes
it once from a constant string): reject a malformed commitment, then a
non-numeric or out-of-range quality score, then a wrong verification key, and
finally require the proof string to have length 64. JavaScript destructuring
of a too-short `publicInputs` yields `undefined`, modelled by the default
string `"undefined"` (non-hex and non-numeric, as in JS). -/
def verifyProof (vkey : String) (p : ZKProof) : Bool :=
  let commitment := (p.publicInputs[0]?).getD "undefined"
  let qualityScore := (p.publicInputs[1]?).getD "undefined"
  if !validateCommitment commitment then false
  else
    match jsParseFloat qualityScore with
    | none => false
    | some score =>
      if score < 0 ∨ 100 < score then false
      else if p.verificationKey ≠ vkey then false
      else p.proof.length == 64

/-- Embeds `ZKQualityVerifier.proveTimestamp` (zk-quality.ts lines 75-83) classifies
`age = now - timestamp` (milliseconds) as recent exactly when
`age < 300000`; `true` models the string `'recent'`. There is no lower
bound on the age and no failure path. -/
def proveTimestampRecent (now timestamp : ℤ) : Bool :=
  decide (now - timestamp < 300000)

-- ## Program-derived addresses
-- (call sites: src/examples/comprehensive-validation/simple-validation.ts
-- lines 269-314; the derivation algorithm is `PublicKey.findProgramAddressSync`
-- of @solana/web3.js, embedded here parametrically in the hash function `h`
-- and the curve test `onCurve`.)

/-- Byte view of a seed string. -/
def bytes (s : String) : List ℕ :=
  s.data.map Char.toNat

/-- The fixed marker `"ProgramDerivedAddress"` appended by the derivation. -/
def pdaMarker : List ℕ := bytes "ProgramDerivedAddress"

/-- Embeds `createProgramAddressSync`: hash of the concatenated seeds, the program id
and the fixed marker. -/
def createProgramAddress (h : List ℕ → List ℕ) (seeds : List (List ℕ))
    (programId : List ℕ) : List ℕ :=
  h (seeds.flatten ++ programId ++ pdaMarker)

/-- Bump search of `findProgramAddressSync`: try bump = fuel, fuel-1, ..., 1,
returning the first candidate address that is not on the curve. -/
def findProgramAddressGo (h : List ℕ → List ℕ) (onCurve : List ℕ → Bool)
    (seeds : List (List ℕ)) (programId : List ℕ) : ℕ → Option (List ℕ × ℕ)
  | 0 => none
  | n + 1 =>
    let addr := createProgramAddress h (seeds ++ [[n + 1]]) programId
    if onCurve addr then findProgramAddressGo h onCurve seeds programId n
    else some (addr, n + 1)

/-- Embeds `findProgramAddressSync(seeds, programId)`: search bumps from 255 down. -/
def findProgramAddress (h : List ℕ → List ℕ) (onCurve : List ℕ → Bool)
    (seeds : List (List ℕ)) (programId : List ℕ) : Option (List ℕ × ℕ) :=
  findProgramAddressGo h onCurve seeds programId 255

/-- Escrow address derivation with seeds `["escrow", transaction_id]`
(simple-validation.ts lines 275-278). -/
def deriveEscrowPDA (h : List ℕ → List ℕ) (onCurve : List ℕ → Bool)
    (transactionId : List ℕ) (programId : List ℕ) : Option (List ℕ × ℕ) :=
  findProgramAddress h onCurve [bytes "escrow", transactionId] programId

/-- Reputation address derivation with seeds `["reputation", entity_key]`
(simple-validation.ts lines 285-288). -/
def deriveReputationPDA (h : List ℕ → List ℕ) (onCurve : List ℕ → Bool)
    (entityKey : List ℕ) (programId : List ℕ) : Option (List ℕ × ℕ) :=
  findProgramAddress h onCurve [bytes "reputation", entityKey] programId

-- ## Concrete instances used by witnesses

/-- A concrete, executable stand-in hash for witness computations. -/
def hashLenSum : List ℕ → List ℕ :=
  fun l => [l.foldl (fun a x => a + x) 0 % 256]

/-- A concrete curve test under which every candidate is off-curve. -/
def offCurveNone : List ℕ → Bool :=
  fun _ => false

/-- The escrow address the witness derivation produces. -/
def escrowAddrDemo : List ℕ :=
  hashLenSum ((bytes "escrow") ++ [1, 2] ++ [255] ++ [3] ++ pdaMarker)

/-- A 64-character lowercase-hex commitment string. -/
def commitDemo : String :=
  "aaaaaaaaaaaaaaaaaaaaaaaaaaaaaaaaaaaaaaaaaaaaaaaaaaaaaaaaaaaaaaaa"

/-- A proof object whose quality-score public input is the out-of-range "150". -/
def zkProofDemo : ZKProof :=
  { proof := "p", publicInputs := [commitDemo, "150"], verificationKey := "vk" }

-- # Theorems

-- ## Helper lemmas

theorem refundPercentageSpec_nonneg (s : ℚ) : 0 ≤ refundPercentageSpec s := by
  unfold refundPercentageSpec
  split
  · exact le_refl 0
  · exact le_min (by norm_num) (le_max_left 0 _)

theorem refundPercentageSpec_le_100 (s : ℚ) : refundPercentageSpec s ≤ 100 := by
  unfold refundPercentageSpec
  split
  · norm_num
  · exact min_le_left _ _

theorem settleAmounts_sum (amount : ℕ) (pct : ℚ) (_h0 : 0 ≤ pct) (h1 : pct ≤ 100) :
    (settleAmounts amount pct).1 ≤ amount ∧
    (settleAmounts amount pct).1 + (settleAmounts amount pct).2 = amount := by
  have hle : (amount : ℚ) * pct / 100 ≤ ((amount : ℕ) : ℚ) := by
    rw [div_le_iff₀ (by norm_num : (0 : ℚ) < 100)]
    exact mul_le_mul_of_nonneg_left h1 (by positivity)
  have hfl : Int.floor ((amount : ℚ) * pct / 100) ≤ (amount : ℤ) := by
    have := Int.floor_le_floor hle
    simpa using this
  have h1' : (settleAmounts amount pct).1 ≤ amount := by
    simpa [settleAmounts] using Int.toNat_le.mpr hfl
  exact ⟨h1', by simp [settleAmounts] at h1' ⊢; omega⟩

theorem insertSorted_length (x : ℚ) (l : List ℚ) :
    (insertSorted x l).length = l.length + 1 := by
  induction l with
  | nil => rfl
  | cons y ys ih =>
    simp only [insertSorted]
    split
    · simp
    · simp [ih]

theorem sortScores_length (l : List ℚ) : (sortScores l).length = l.length := by
  induction l with
  | nil => rfl
  | cons x xs ih => simp [sortScores, insertSorted_length, ih]

theorem buildConsensusSpec_of_length (scores : List ℚ) (mc : ℕ) (md : ℚ)
    (hmc : mc ≤ scores.length) :
    buildConsensusSpec scores mc md =
      if md < spreadPercentOfSorted (sortScores scores)
      then .error .deviationExceeded
      else .ok (medianOfSorted (sortScores scores)) := by
  have hlen : (sortScores scores).length = scores.length := sortScores_length scores
  unfold buildConsensusSpec
  rw [if_neg (by omega)]

-- ## Claim theorems

/-- Claim C1: the claim states that the refund percentage computed when a
dispute is resolved is 0 for score ≥ 80 and `clamp(((80 - s) / 80) * 100, 0, 100)`
below 80 (38 ↦ 52.5, 85 ↦ 0). The dispute-handling code under src/
(`initiateDispute`, `processDisputeResolution`) instead computes
`max(0, 100 - s)`: at score 38 it yields 62 rather than the documented 52.5,
and at score 85 it yields 15 rather than 0, contradicting the repository's
own documentation (part_001 lines 61-63, SCENE-5-VISUAL-GUIDE.md, README
"Score ≥ 80 → No refund"). -/
theorem refund_formula_code_vs_spec :
    initiateDisputeRefundPercentage 38 = 62 ∧
    processDisputeResolutionRefund 38 = 62 ∧
    refundPercentageSpec 38 = 105 / 2 ∧
    initiateDisputeRefundPercentage 85 = 15 ∧
    processDisputeResolutionRefund 85 = 15 ∧
    refundPercentageSpec 85 = 0 ∧
    (62 : ℚ) ≠ 105 / 2 ∧ (15 : ℚ) ≠ 0 := by
  norm_num [initiateDisputeRefundPercentage, processDisputeResolutionRefund,
    refundPercentageSpec]

/-- Claim C2: for every u64 amount and refund percentage in [0,100], the
settlement computes `refund = floor(amount * pct / 100)` in u128 (the widened
multiplication cannot overflow), the checked subtraction
`payment = amount - refund` never underflows, and
`refund + payment = amount` exactly. -/
theorem resolve_dispute_amounts_exact (amount pct : ℕ)
    (hA : amount < u64Bound) (hP : pct ≤ 100) :
    resolveDisputeAmounts amount pct =
      some (amount * pct / 100, amount - amount * pct / 100) ∧
    amount * pct / 100 + (amount - amount * pct / 100) = amount := by
  have hmul : amount * pct < u128Bound := by
    have h1 : amount * pct ≤ amount * 100 := Nat.mul_le_mul (le_refl amount) hP
    have h2 : amount * 100 < u64Bound * 100 :=
      Nat.mul_lt_mul_of_lt_of_le hA (le_refl 100) (by norm_num)
    have h3 : u64Bound * 100 < u128Bound := by norm_num [u64Bound, u128Bound]
    omega
  have hdiv : amount * pct / 100 ≤ amount := by
    have h1 : amount * pct / 100 ≤ amount * 100 / 100 :=
      Nat.div_le_div_right (Nat.mul_le_mul (le_refl amount) hP)
    simpa using h1
  have hlt : amount * pct / 100 < u64Bound := lt_of_le_of_lt hdiv hA
  refine ⟨?_, by omega⟩
  simp [resolveDisputeAmounts, checkedMulU128, checkedDivU128, checkedSubU64, castU64,
    hmul, hdiv, Nat.mod_eq_of_lt hlt]

/-- Witness for C2 at amount 10^10, percentage 37. -/
theorem resolve_dispute_amounts_exact_witness :
    ((10000000000 : ℕ) < u64Bound ∧ (37 : ℕ) ≤ 100) ∧
    (resolveDisputeAmounts 10000000000 37 =
        some (10000000000 * 37 / 100, 10000000000 - 10000000000 * 37 / 100) ∧
      10000000000 * 37 / 100 + (10000000000 - 10000000000 * 37 / 100) = 10000000000) :=
  ⟨⟨by decide, by decide⟩,
    resolve_dispute_amounts_exact 10000000000 37 (by decide) (by decide)⟩

/-- Claim C7: the claim states freshness validation requires
`now - timestamp ∈ [0, 300] s`, rejecting future-dated timestamps with
`StaleAttestation`. The cited code (`ZKQualityVerifier.proveTimestamp`)
classifies the age with the one-sided test `age < 300000` ms only: at a
timestamp 50 s in the future (negative age) it classifies the attestation as
recent, while the documented on-chain check
(`require!(age >= 0 && age <= 300, StaleAttestation)`, README) rejects it. -/
theorem prove_timestamp_accepts_future :
    proveTimestampRecent 1000000000 1000050000 = true ∧
    ¬ (0 ≤ (1000000000 : ℤ) - 1000050000 ∧
        (1000000000 : ℤ) - 1000050000 ≤ 300000) := by
  exact ⟨by decide, by decide⟩

/-- Claim C8: each recorded settlement increments the transaction count by
one, increments the dispute count only when the settlement was disputed,
recomputes the average quality as the running mean
`(old_avg * (n - 1) + score) / n`, and consequently the dispute count never
exceeds the transaction count. -/
theorem update_provider_history_running_mean (d : HistoricalData) (w : Bool) (q : ℚ)
    (hinv : d.disputes ≤ d.totalTransactions) :
    (updateProviderHistory d w q).totalTransactions = d.totalTransactions + 1 ∧
    (updateProviderHistory d w q).disputes =
      (if w then d.disputes + 1 else d.disputes) ∧
    (updateProviderHistory d w q).averageQuality =
      (d.averageQuality * (d.totalTransactions : ℚ) + q) /
        ((d.totalTransactions : ℚ) + 1) ∧
    (updateProviderHistory d w q).disputes ≤
      (updateProviderHistory d w q).totalTransactions := by
  refine ⟨rfl, rfl, ?_, ?_⟩
  · simp only [updateProviderHistory]
    push_cast
    ring_nf
  · simp only [updateProviderHistory]
    split <;> omega

/-- Witness for C8 at history (4 transactions, 1 dispute, average 80),
disputed settlement of quality 50. -/
theorem update_provider_history_running_mean_witness :
    (1 : ℕ) ≤ 4 ∧
    ((updateProviderHistory ⟨4, 1, 80, 150, 99⟩ true 50).totalTransactions = 4 + 1 ∧
      (updateProviderHistory ⟨4, 1, 80, 150, 99⟩ true 50).disputes =
        (if true then 1 + 1 else 1) ∧
      (updateProviderHistory ⟨4, 1, 80, 150, 99⟩ true 50).averageQuality =
        (80 * ((4 : ℕ) : ℚ) + 50) / (((4 : ℕ) : ℚ) + 1) ∧
      (updateProviderHistory ⟨4, 1, 80, 150, 99⟩ true 50).disputes ≤
        (updateProviderHistory ⟨4, 1, 80, 150, 99⟩ true 50).totalTransactions) :=
  ⟨by decide, update_provider_history_running_mean ⟨4, 1, 80, 150, 99⟩ true 50 (by decide)⟩

/-- Claim C3: with at least `min_consensus_count` valid submissions, the
consensus score is the median of the sorted scores (mean of the two middle
values at even length), resolution fails with `DeviationExceeded` exactly when
the relative spread `(max - min) / median` exceeds `max_deviation_percent`
(leaving a Disputed escrow unresolved), and on the spec's examples:
[82,84,85,86,88] at 15% succeeds with consensus 85 while [20,90] at
min_consensus 2 fails with `DeviationExceeded`. -/
theorem consensus_median_and_deviation :
    (∀ (scores : List ℚ) (mc : ℕ) (md : ℚ),
        mc ≤ scores.length →
        buildConsensusSpec scores mc md =
          (if md < spreadPercentOfSorted (sortScores scores)
            then .error .deviationExceeded
            else .ok (medianOfSorted (sortScores scores)))) ∧
    (∀ (e : Escrow) (scores : List ℚ) (mc : ℕ) (md : ℚ),
        e.status = .disputed → mc ≤ scores.length →
        md < spreadPercentOfSorted (sortScores scores) →
        resolveDispute e scores mc md = .error .deviationExceeded) ∧
    buildConsensusSpec [82, 84, 85, 86, 88] 3 15 = .ok 85 ∧
    medianOfSorted (sortScores [82, 84, 85, 86, 88]) = 85 ∧
    buildConsensusSpec [20, 90] 2 15 = .error .deviationExceeded ∧
    medianOfSorted (sortScores [20, 90]) = 55 := by
  refine ⟨buildConsensusSpec_of_length, ?_, ?_, ?_, ?_, ?_⟩
  · intro e scores mc md hs hmc hdev
    have hb := buildConsensusSpec_of_length scores mc md hmc
    rw [if_pos hdev] at hb
    simp [resolveDispute, hs, hb]
  · norm_num [buildConsensusSpec, sortScores, insertSorted, medianOfSorted,
      spreadPercentOfSorted]
  · norm_num [sortScores, insertSorted, medianOfSorted]
  · norm_num [buildConsensusSpec, sortScores, insertSorted, medianOfSorted,
      spreadPercentOfSorted]
  · norm_num [sortScores, insertSorted, medianOfSorted]

/-- Witness for C3: the spec's failing example [20,90] with min_consensus 2 and
max_deviation 15% on a Disputed escrow. -/
theorem consensus_median_and_deviation_witness :
    (15 : ℚ) < spreadPercentOfSorted (sortScores [20, 90]) ∧
    (2 : ℕ) ≤ ([20, 90] : List ℚ).length ∧
    resolveDispute ⟨5, .disputed, none, none⟩ [20, 90] 2 15 =
      .error .deviationExceeded := by
  have hspread : (15 : ℚ) < spreadPercentOfSorted (sortScores [20, 90]) := by
    norm_num [spreadPercentOfSorted, sortScores, insertSorted, medianOfSorted]
  exact ⟨hspread, by norm_num,
    consensus_median_and_deviation.2.1 ⟨5, .disputed, none, none⟩ [20, 90] 2 15 rfl
      (by norm_num) hspread⟩

/-- Claim C4: a successful `resolve_dispute` yields a Resolved escrow whose two
transfer legs sum exactly to the escrowed amount, and any further
`resolve_dispute` call on that escrow fails with `AlreadyResolved` (changing
no state in this functional model), so the amount moves exactly once. -/
theorem resolve_dispute_at_most_once (e : Escrow) (scores : List ℚ)
    (mc : ℕ) (md : ℚ) (e' : Escrow) (r p : ℕ)
    (h : resolveDispute e scores mc md = .ok (e', r, p)) :
    e'.status = .resolved ∧ r + p = e.amount ∧
    ∀ (scores' : List ℚ) (mc' : ℕ) (md' : ℚ),
      resolveDispute e' scores' mc' md' = .error .alreadyResolved := by
  cases hs : e.status with
  | active => simp [resolveDispute, hs] at h
  | released => simp [resolveDispute, hs] at h
  | resolved => simp [resolveDispute, hs] at h
  | disputed =>
    cases hc : buildConsensusSpec scores mc md with
    | error err => simp [resolveDispute, hs, hc] at h
    | ok score =>
      have hb0 := refundPercentageSpec_nonneg score
      have hb1 := refundPercentageSpec_le_100 score
      have hsum := settleAmounts_sum e.amount (refundPercentageSpec score) hb0 hb1
      simp [resolveDispute, hs, hc] at h
      obtain ⟨he, hrp⟩ := h
      have h1 : r = (settleAmounts e.amount (refundPercentageSpec score)).1 := by rw [hrp]
      have h2 : p = (settleAmounts e.amount (refundPercentageSpec score)).2 := by rw [hrp]
      refine ⟨?_, ?_, ?_⟩
      · rw [← he]
      · rw [h1, h2]
        exact hsum.2
      · intro scores' mc' md'
        simp [resolveDispute, ← he]

/-- Witness for C4: a Disputed escrow of amount 1000 resolved with the spec's
successful example scores; the second call fails `AlreadyResolved`. -/
theorem resolve_dispute_at_most_once_witness :
    resolveDispute ⟨1000, .disputed, none, none⟩ [82, 84, 85, 86, 88] 3 15 =
      .ok (⟨1000, .resolved, some 85, some 0⟩, 0, 1000) ∧
    (⟨1000, .resolved, some 85, some 0⟩ : Escrow).status = .resolved ∧
    0 + 1000 = 1000 ∧
    resolveDispute ⟨1000, .resolved, some 85, some 0⟩ [] 0 0 =
      .error .alreadyResolved := by
  have h : resolveDispute ⟨1000, .disputed, none, none⟩ [82, 84, 85, 86, 88] 3 15 =
      .ok (⟨1000, .resolved, some 85, some 0⟩, 0, 1000) := by
    norm_num [resolveDispute, buildConsensusSpec, sortScores, insertSorted,
      medianOfSorted, spreadPercentOfSorted, refundPercentageSpec, settleAmounts]
  have hc := resolve_dispute_at_most_once _ _ _ _ _ _ _ h
  exact ⟨h, hc.1, hc.2.1, hc.2.2 [] 0 0⟩

/-- Claim C5: every successful mutating instruction makes only a forward
transition (Active to Released or Disputed, Disputed to Resolved), and every
instruction invoked with its state precondition violated fails with the
matching state error --- the error is returned before any state change, which
the functional model expresses by returning no new escrow at all. -/
theorem escrow_state_machine_forward :
    (∀ (e : Escrow) (i : EscrowInstr) (e' : Escrow),
        applyInstr e i = .ok e' → forwardTransition e.status e'.status = true) ∧
    (∀ e : Escrow, e.status ≠ .active →
        applyInstr e .release = .error .notActive) ∧
    (∀ (e : Escrow) (w : Bool), e.status ≠ .active →
        applyInstr e (.markDispute w) = .error .alreadyResolved) ∧
    (∀ e : Escrow, e.status = .active →
        applyInstr e (.markDispute false) = .error .windowClosed) ∧
    (∀ (e : Escrow) (s : List ℚ) (mc : ℕ) (md : ℚ), e.status = .resolved →
        applyInstr e (.resolve s mc md) = .error .alreadyResolved) ∧
    (∀ (e : Escrow) (s : List ℚ) (mc : ℕ) (md : ℚ),
        e.status = .active ∨ e.status = .released →
        applyInstr e (.resolve s mc md) = .error .notActive) := by
  refine ⟨?_, ?_, ?_, ?_, ?_, ?_⟩
  · intro e i e' h
    cases i with
    | release =>
      cases hs : e.status <;> simp [applyInstr, releaseFunds, hs] at h
      case active => simp [forwardTransition, hs, ← h]
    | markDispute w =>
      cases hs : e.status <;> simp [applyInstr, markDisputed, hs] at h
      case active =>
        cases w with
        | false => simp at h
        | true =>
          simp at h
          simp [forwardTransition, hs, ← h]
    | resolve s mc md =>
      cases hs : e.status <;> simp [applyInstr, resolveDispute, Except.map, hs] at h
      case disputed =>
        cases hc : buildConsensusSpec s mc md with
        | error err => simp [hc] at h
        | ok score =>
          simp [hc] at h
          simp [forwardTransition, hs, ← h]
  · intro e hs
    cases h : e.status <;> simp_all [applyInstr, releaseFunds]
  · intro e w hs
    cases h : e.status <;> simp_all [applyInstr, markDisputed]
  · intro e hs
    simp [applyInstr, markDisputed, hs]
  · intro e s mc md hs
    simp [applyInstr, resolveDispute, Except.map, hs]
  · intro e s mc md hs
    cases hs with
    | inl h => simp [applyInstr, resolveDispute, Except.map, h]
    | inr h => simp [applyInstr, resolveDispute, Except.map, h]

/-- Witness for C5: releasing a Released escrow fails `NotActive`. -/
theorem escrow_state_machine_forward_witness :
    (⟨7, .released, none, none⟩ : Escrow).status ≠ .active ∧
    applyInstr ⟨7, .released, none, none⟩ .release = .error .notActive :=
  ⟨by decide, escrow_state_machine_forward.2.1 ⟨7, .released, none, none⟩ (by decide)⟩

/-- Helper: unfold the hash input of a three-seed program address. -/
theorem createProgramAddress_three (h : List ℕ → List ℕ) (s t : List ℕ) (b : ℕ)
    (pid : List ℕ) :
    createProgramAddress h [s, t, [b]] pid = h (s ++ t ++ [b] ++ pid ++ pdaMarker) := by
  simp [createProgramAddress, List.append_assoc]

/-- Helper: a successful bump search returns the hash of the seeds extended by
the found bump, with the bump in (0, fuel] and the address off-curve. -/
theorem findProgramAddressGo_some (h : List ℕ → List ℕ) (c : List ℕ → Bool)
    (seeds : List (List ℕ)) (pid : List ℕ) :
    ∀ (fuel : ℕ) (a : List ℕ) (b : ℕ),
      findProgramAddressGo h c seeds pid fuel = some (a, b) →
      a = createProgramAddress h (seeds ++ [[b]]) pid ∧
        1 ≤ b ∧ b ≤ fuel ∧ c a = false := by
  intro fuel
  induction fuel with
  | zero => intro a b hab; simp [findProgramAddressGo] at hab
  | succ n ih =>
    intro a b hab
    simp only [findProgramAddressGo] at hab
    by_cases hcv : c (createProgramAddress h (seeds ++ [[n + 1]]) pid) = true
    · rw [if_pos hcv] at hab
      have hr := ih a b hab
      exact ⟨hr.1, hr.2.1, hr.2.2.1.trans (Nat.le_succ n), hr.2.2.2⟩
    · rw [if_neg hcv] at hab
      simp at hab
      obtain ⟨ha, hb⟩ := hab
      subst ha hb
      exact ⟨rfl, by omega, le_refl _, by simpa using hcv⟩

/-- Claim C6: address derivation is a pure function of its seeds and the
program id: deriving twice yields an identical (address, bump) pair, and a
successful derivation is fully characterised --- the address is the hash of
seed bytes, transaction id (or entity key), bump and program id with the
fixed marker, the bump lies in [1, 255], and the address is off-curve. -/
theorem pda_derivation_deterministic :
    (∀ (h : List ℕ → List ℕ) (c : List ℕ → Bool) (txId pid : List ℕ),
        deriveEscrowPDA h c txId pid = deriveEscrowPDA h c txId pid ∧
        deriveReputationPDA h c txId pid = deriveReputationPDA h c txId pid) ∧
    (∀ (h : List ℕ → List ℕ) (c : List ℕ → Bool) (txId pid a : List ℕ) (b : ℕ),
        deriveEscrowPDA h c txId pid = some (a, b) →
        a = h ((bytes "escrow") ++ txId ++ [b] ++ pid ++ pdaMarker) ∧
        1 ≤ b ∧ b ≤ 255 ∧ c a = false) ∧
    (∀ (h : List ℕ → List ℕ) (c : List ℕ → Bool) (key pid a : List ℕ) (b : ℕ),
        deriveReputationPDA h c key pid = some (a, b) →
        a = h ((bytes "reputation") ++ key ++ [b] ++ pid ++ pdaMarker) ∧
        1 ≤ b ∧ b ≤ 255 ∧ c a = false) := by
  refine ⟨fun _ _ _ _ => ⟨rfl, rfl⟩, ?_, ?_⟩
  · intro h c txId pid a b hd
    have hr := findProgramAddressGo_some h c [bytes "escrow", txId] pid 255 a b hd
    rw [show ([bytes "escrow", txId] ++ [[b]]) = [bytes "escrow", txId, [b]] from rfl,
      createProgramAddress_three] at hr
    exact hr
  · intro h c key pid a b hd
    have hr := findProgramAddressGo_some h c [bytes "reputation", key] pid 255 a b hd
    rw [show ([bytes "reputation", key] ++ [[b]]) = [bytes "reputation", key, [b]] from rfl,
      createProgramAddress_three] at hr
    exact hr

/-- Witness for C6: a concrete derivation with an executable hash, every
candidate off-curve, transaction id [1,2] and program id [3]. -/
theorem pda_derivation_deterministic_witness :
    deriveEscrowPDA hashLenSum offCurveNone [1, 2] [3] = some (escrowAddrDemo, 255) ∧
    escrowAddrDemo =
      hashLenSum ((bytes "escrow") ++ [1, 2] ++ [255] ++ [3] ++ pdaMarker) ∧
    1 ≤ 255 ∧ 255 ≤ 255 ∧ offCurveNone escrowAddrDemo = false := by
  have hd : deriveEscrowPDA hashLenSum offCurveNone [1, 2] [3] =
      some (escrowAddrDemo, 255) := by decide
  have hr := pda_derivation_deterministic.2.1 hashLenSum offCurveNone [1, 2] [3]
    escrowAddrDemo 255 hd
  exact ⟨hd, hr.1, hr.2.1, hr.2.2.1, hr.2.2.2⟩

/-- Claim C9: `calculateTrustScore` is clamped to [0,100] for all inputs,
monotonically non-decreasing in average quality and non-increasing in dispute
rate; `calculateReputationScore` is monotonically non-decreasing in average
quality (its other inputs held fixed) and independent of the dispute count. -/
theorem reputation_score_bounded_monotone :
    (∀ (t : BadgeTier) (q d : ℚ),
        0 ≤ calculateTrustScore t q d ∧ calculateTrustScore t q d ≤ 100) ∧
    (∀ (t : BadgeTier) (q q' d : ℚ), q ≤ q' →
        calculateTrustScore t q d ≤ calculateTrustScore t q' d) ∧
    (∀ (t : BadgeTier) (q d d' : ℚ), d ≤ d' →
        calculateTrustScore t q d' ≤ calculateTrustScore t q d) ∧
    (∀ h h' : HistoricalData,
        h.totalTransactions = h'.totalTransactions → h.uptime = h'.uptime →
        h.responseTime = h'.responseTime → h.averageQuality ≤ h'.averageQuality →
        calculateReputationScore h ≤ calculateReputationScore h') ∧
    (∀ (h : HistoricalData) (k : ℕ),
        calculateReputationScore { h with disputes := k } =
          calculateReputationScore h) := by
  refine ⟨?_, ?_, ?_, ?_, fun h k => rfl⟩
  · intro t q d
    unfold calculateTrustScore
    exact ⟨le_max_left 0 _, max_le (by norm_num) (min_le_left _ _)⟩
  · intro t q q' d hq
    unfold calculateTrustScore
    have hstep : tierScore t + (q - 50) * (2 / 5) - d * 20 ≤
        tierScore t + (q' - 50) * (2 / 5) - d * 20 := by linarith
    exact max_le_max (le_refl 0) (min_le_min (le_refl 100) hstep)
  · intro t q d d' hd
    unfold calculateTrustScore
    have hstep : tierScore t + (q - 50) * (2 / 5) - d' * 20 ≤
        tierScore t + (q - 50) * (2 / 5) - d * 20 := by linarith
    exact max_le_max (le_refl 0) (min_le_min (le_refl 100) hstep)
  · intro h h' ht hu hr hq
    unfold calculateReputationScore
    rw [ht, hu, hr]
    by_cases h0 : h'.totalTransactions = 0
    · simp [h0]
    · simp only [h0, if_false]
      linarith

/-- Witness for C9: trust score monotone from quality 60 to 70 on a bronze
badge with dispute rate 0. -/
theorem reputation_score_bounded_monotone_witness :
    (60 : ℚ) ≤ 70 ∧
    calculateTrustScore .bronze 60 0 ≤ calculateTrustScore .bronze 70 0 :=
  ⟨by norm_num, reputation_score_bounded_monotone.2.1 .bronze 60 70 0 (by norm_num)⟩

/-- Claim C10: `verifyProof` returns false whenever the quality-score public
input is non-numeric or outside [0,100], or the commitment is not 64
lowercase-hex characters, or the verification key differs from the fixed key,
or the proof string does not have length 64. -/
theorem verify_proof_rejects_invalid (vkey : String) (p : ZKProof)
    (h : jsParseFloat ((p.publicInputs[1]?).getD "undefined") = none ∨
        (∃ q : ℚ, jsParseFloat ((p.publicInputs[1]?).getD "undefined") = some q ∧
          (q < 0 ∨ 100 < q)) ∨
        validateCommitment ((p.publicInputs[0]?).getD "undefined") = false ∨
        p.verificationKey ≠ vkey ∨
        p.proof.length ≠ 64) :
    verifyProof vkey p = false := by
  rcases h with hn | ⟨q, hq2, hrange⟩ | hf | hk | hl
  · simp [verifyProof, hn]
  · rcases hrange with hr | hr <;> simp [verifyProof, hq2, hr]
  · simp [verifyProof, hf]
  · cases hq : jsParseFloat ((p.publicInputs[1]?).getD "undefined") <;>
      simp [verifyProof, hq, hk]
  · cases hq : jsParseFloat ((p.publicInputs[1]?).getD "undefined") <;>
      simp [verifyProof, hq, hl]

/-- Witness for C10: a proof whose score input "150" parses but exceeds 100 is
rejected. -/
theorem verify_proof_rejects_invalid_witness :
    jsParseFloat "150" = some 150 ∧ (100 : ℚ) < 150 ∧
    verifyProof "vk" zkProofDemo = false := by
  have hp : jsParseFloat "150" = some 150 := by
    rw [jsParseFloat, show parseDecimal "150" = some (false, 150, 0, 0, 0) from by decide]
    norm_num [ratOfParts]
  refine ⟨hp, by norm_num, ?_⟩
  exact verify_proof_rejects_invalid "vk" zkProofDemo
    (Or.inr (Or.inl ⟨150, hp, Or.inr (by norm_num)⟩))

end X402
